import Mathlib

/-!
Verification of the jaide contact-form backend (`server.js`).

The development shallowly embeds the request-handling pipeline of the
repository: the express-validator validation chains, the reCAPTCHA
verification client, email composition, the delivery dispatch (Resend
API vs nodemailer transport), the surrounding try/catch response
mapping and the express-rate-limit middleware.  External I/O (the
axios call, transporter verification, the individual send operations)
is made explicit as an `Ext` record of outcomes; everything else is an
executable function of the request body and the configuration
snapshot, translated line by line from `server.js`.

Library functions used by the source (validator.js validators and
sanitizers, JavaScript string primitives) are modelled with their
default-option semantics; each model notes in its doc comment which
library behaviour it captures.
-/

namespace JaideContact

/-! ### JavaScript character and string primitives -/

/-- The character class of JavaScript's `\s` (the `TrimString` /
`WhiteSpace ∪ LineTerminator` set): tab, LF, VT, FF, CR, space, NBSP,
Ogham space, the U+2000–U+200A range, LS, PS, NNBSP, MMSP, ideographic
space and the BOM. -/
def isJsSpace (c : Char) : Bool :=
  let v := c.toNat
  v = 0x9 || v = 0xA || v = 0xB || v = 0xC || v = 0xD || v = 0x20 ||
  v = 0xA0 || v = 0x1680 || (0x2000 ≤ v && v ≤ 0x200A) ||
  v = 0x2028 || v = 0x2029 || v = 0x202F || v = 0x205F || v = 0x3000 || v = 0xFEFF

/-- JavaScript `String.prototype.trim()`: strips `\s` characters from
both ends. -/
def jsTrim (s : String) : String :=
  String.mk (((s.data.dropWhile isJsSpace).reverse.dropWhile isJsSpace).reverse)

/-- ASCII letter (`[a-zA-Z]`, the `/i`-insensitive `[a-z]` classes of
the validator.js regexes). -/
def asciiLetter (c : Char) : Bool :=
  let v := c.toNat
  (0x61 ≤ v && v ≤ 0x7A) || (0x41 ≤ v && v ≤ 0x5A)

/-- ASCII digit `[0-9]`. -/
def asciiDigit (c : Char) : Bool :=
  let v := c.toNat
  0x30 ≤ v && v ≤ 0x39

/-- JavaScript `str.split(sep)` for a one-character separator:
`""` splits to `[""]`, and separators at the ends produce empty
pieces, exactly as in JS. -/
def jsSplitChars (sep : Char) : List Char → List (List Char)
  | [] => [[]]
  | c :: rest =>
      let acc := jsSplitChars sep rest
      if c = sep then [] :: acc
      else match acc with
        | [] => [[c]]
        | p :: ps => (c :: p) :: ps

/-- `str.split(sep)` on strings. -/
def jsSplit (sep : Char) (s : String) : List String :=
  (jsSplitChars sep s.data).map String.mk

/-- `parts.join('@')` (used by validator.js to rebuild the local part
of an address that contains several `@`s). -/
def joinAt : List String → String
  | [] => ""
  | [s] => s
  | s :: rest => s ++ "@" ++ joinAt rest

/-- ASCII-range model of `String.prototype.toLowerCase()` (the
addresses and backend identifiers the claims exercise are ASCII). -/
def jsToLower (s : String) : String :=
  String.mk (s.data.map Char.toLower)

/-- `message.replace(/\n/g, '<br>')` from the team-notification
template. -/
def jsReplaceNewlines (s : String) : String :=
  String.mk (s.data.foldr
    (fun c acc => if c = '\n' then '<' :: 'b' :: 'r' :: '>' :: acc else c :: acc) [])

/-- Number of UTF-8 bytes of one character (validator.js
`isByteLength` measures `encodeURIComponent` length, i.e. UTF-8
bytes). -/
def charUtf8Bytes (c : Char) : Nat :=
  let v := c.toNat
  if v < 0x80 then 1 else if v < 0x800 then 2 else if v < 0x10000 then 3 else 4

/-- UTF-8 byte length of a string. -/
def utf8Bytes (s : String) : Nat :=
  s.data.foldl (fun n c => n + charUtf8Bytes c) 0

/-- express-validator reads a missing field as `undefined` and coerces
it to the empty string before running validators on it. -/
def optToStr : Option String → String
  | none => ""
  | some s => s

/-- JavaScript truthiness of an optional environment variable / field:
`undefined` and `''` are falsy. -/
def isTruthy : Option String → Bool
  | none => false
  | some s => s ≠ ""

/-- `a || b` on two possibly-undefined strings (JS falsy-or). -/
def jsOr (a b : Option String) : Option String :=
  if isTruthy a then a else b

/-- `a || "default"`: the JS falsy-or against a string literal, as in
`process.env.EMAIL_TO || 'contact@jaide.care'`. -/
def jsOrD (a : Option String) (d : String) : String :=
  match a with
  | none => d
  | some s => if s = "" then d else s

/-! ### validator.js `isEmail` (default options) -/

/-- Character class of the validator.js FQDN label regex
`/^[a-z_¡-￿0-9-]+$/i`. -/
def fqdnChar (c : Char) : Bool :=
  asciiLetter c || asciiDigit c || c = '-' || c = '_' ||
  (0xA1 ≤ c.toNat && c.toNat ≤ 0xFFFF)

/-- Full-width characters `/[！-～]/`, rejected in FQDN
labels. -/
def fullWidthChar (c : Char) : Bool :=
  0xFF01 ≤ c.toNat && c.toNat ≤ 0xFF5E

/-- One label of a domain, per validator.js `isFQDN`: at most 63
chars, matching the label class, not full-width, not starting or
ending with `-`, and (with `allow_underscores: false`) containing no
`_`. -/
def fqdnLabelOk (p : String) : Bool :=
  p.length ≤ 63 &&
  (p ≠ "" && p.data.all fqdnChar) &&
  !(p.data.any fullWidthChar) &&
  !(p.data.head? = some '-') && !(p.data.getLast? = some '-') &&
  !(p.data.contains '_')

/-- Character class of the validator.js TLD regex
`[a-z¡-¨ª-퟿豈-﷏ﷰ-￯]` (with
`/i`). -/
def tldChar (c : Char) : Bool :=
  let v := c.toNat
  asciiLetter c || (0xA1 ≤ v && v ≤ 0xA8) || (0xAA ≤ v && v ≤ 0xD7FF) ||
  (0xF900 ≤ v && v ≤ 0xFDCF) || (0xFDF0 ≤ v && v ≤ 0xFFEF)

/-- The punycode alternative `xn[a-z0-9-]{2,}` of the TLD regex
(case-insensitive). -/
def xnTld (t : String) : Bool :=
  match t.data with
  | x :: n :: rest =>
      (x = 'x' || x = 'X') && (n = 'n' || n = 'N') &&
      rest.length ≥ 2 && rest.all (fun c => asciiLetter c || asciiDigit c || c = '-')
  | _ => false

/-- The `require_tld` check of validator.js `isFQDN`: the last label
matches the TLD regex, contains no whitespace, and (with
`allow_numeric_tld: false`) is not all digits. -/
def tldOk (t : String) : Bool :=
  ((t.length ≥ 2 && t ≠ "" && t.data.all tldChar) || xnTld t) &&
  !(t.data.any isJsSpace) &&
  !(t ≠ "" && t.data.all asciiDigit)

/-- Model of validator.js `isFQDN` with default options
(`require_tld: true`, `allow_underscores: false`,
`allow_trailing_dot: false`, `allow_numeric_tld: false`). -/
def isFQDN (s : String) : Bool :=
  let parts := jsSplit '.' s
  let tld := (parts.getLastD "")
  parts.length ≥ 2 && tldOk tld && parts.all fqdnLabelOk

/-- Character class of the validator.js local-part regex
`emailUserUtf8Part`
`/^[a-z\d!#\$%&'\*\+\-\/=\?\^_\x60\x7b\x7c\x7d~¡-\u{10FFFF}]+$/ui`. -/
def emailUserChar (c : Char) : Bool :=
  let v := c.toNat
  asciiLetter c || asciiDigit c ||
  v = 0x21 || v = 0x23 || v = 0x24 || v = 0x25 || v = 0x26 || v = 0x27 ||
  v = 0x2A || v = 0x2B || v = 0x2D || v = 0x2F || v = 0x3D || v = 0x3F ||
  v = 0x5E || v = 0x5F || v = 0x60 || v = 0x7B || v = 0x7C || v = 0x7D || v = 0x7E ||
  0xA1 ≤ v

/-- One dot-separated piece of an unquoted local part. -/
def emailUserPartOk (p : String) : Bool :=
  p ≠ "" && p.data.all emailUserChar

/-- Plain characters allowed inside a quoted local part
(`quotedEmailUserUtf8`): whitespace, most controls, and printable
characters other than `"` and `\`. -/
def quotedChar (c : Char) : Bool :=
  let v := c.toNat
  isJsSpace c || (0x1 ≤ v && v ≤ 0x8) || v = 0xB || v = 0xC ||
  (0xE ≤ v && v ≤ 0x1F) || v = 0x7F || v = 0x21 ||
  (0x23 ≤ v && v ≤ 0x5B) || (0x5D ≤ v && v ≤ 0x7E) || 0xA1 ≤ v

/-- Characters that may follow a backslash inside a quoted local
part. -/
def escapedChar (c : Char) : Bool :=
  let v := c.toNat
  (0x1 ≤ v && v ≤ 0x9) || v = 0xB || v = 0xC || (0xD ≤ v && v ≤ 0x7F) || 0xA1 ≤ v

/-- The quoted-local-part regex: a sequence of plain characters or
backslash-escaped pairs. -/
def quotedUserOk : List Char → Bool
  | [] => true
  | c :: rest =>
      if c = '\\' then
        match rest with
        | [] => false
        | d :: rest2 => escapedChar d && quotedUserOk rest2
      else quotedChar c && quotedUserOk rest

/-- Model of validator.js `isEmail` with the default options used by
express-validator's `.isEmail()`: split at the last `@`, check the
byte lengths of local part (≤ 64) and domain (≤ 254), require the
domain to be an FQDN, and check the local part against the unquoted
(dot-separated) or quoted character classes.  No option trims the
input, so surrounding whitespace makes the domain check fail. -/
def isEmailJs (s : String) : Bool :=
  let parts := jsSplit '@' s
  let domain := parts.getLastD ""
  let user := joinAt parts.dropLast
  utf8Bytes user ≤ 64 && utf8Bytes domain ≤ 254 &&
  isFQDN domain &&
  (if user.data.head? = some '"' then
     quotedUserOk (user.data.drop 1).dropLast
   else (jsSplit '.' user).all emailUserPartOk)

/-- Model of validator.js `normalizeEmail` with default options: the
domain is lowercased; for `gmail.com` / `googlemail.com` the local
part drops a `+` sub-address and all dots and the domain is rewritten
to `gmail.com`; in every other case `all_lowercase: true` lowercases
the local part (the yahoo/outlook/icloud provider branches keep their
sub-addresses by default, so they coincide with plain lowercasing). -/
def normalizeEmail (e : String) : String :=
  let parts := jsSplit '@' e
  let domain := jsToLower (parts.getLastD "")
  let user := joinAt parts.dropLast
  if domain = "gmail.com" || domain = "googlemail.com" then
    let u := (jsSplit '+' user).headD ""
    jsToLower (String.mk (u.data.filter (fun c => c ≠ '.'))) ++ "@" ++ "gmail.com"
  else
    jsToLower user ++ "@" ++ domain

/-! ### Configuration snapshot and request body -/

/-- The environment variables `server.js` reads (each `none` when the
variable is unset).  Read once at startup; the `resend` client is
initialized only when `RESEND_API_KEY` is truthy. -/
structure Config where
  emailService : Option String       -- EMAIL_SERVICE
  recaptchaSecretKey : Option String -- RECAPTCHA_SECRET_KEY
  resendApiKey : Option String       -- RESEND_API_KEY
  emailFrom : Option String          -- EMAIL_FROM
  emailUser : Option String          -- EMAIL_USER
  emailAppPassword : Option String   -- EMAIL_APP_PASSWORD
  emailTo : Option String            -- EMAIL_TO
  smtpHost : Option String           -- SMTP_HOST
  smtpPort : Option String           -- SMTP_PORT
  smtpSecure : Option String         -- SMTP_SECURE
  smtpUser : Option String           -- SMTP_USER
  smtpPassword : Option String       -- SMTP_PASSWORD
deriving DecidableEq

/-- The submitted form fields (`req.body`), each absent or a string.
Field names follow the HTML form: `First-Name`, `Last-Name`, `email`,
`field` (job title), `name-2` (institution), `field-2` (optional
message), `checkbox` (consent), `g-recaptcha-response`. -/
structure Body where
  firstName : Option String
  lastName : Option String
  email : Option String
  field : Option String
  name2 : Option String
  field2 : Option String
  checkbox : Option String
  gRecaptchaResponse : Option String
deriving DecidableEq

/-- One express-validator error entry: the offending field (`param`,
absent for the handler's synthesized reCAPTCHA entry) and its
human-readable message. -/
structure FieldError where
  param : Option String
  msg : String
deriving DecidableEq

/-! ### The validation chains (`contactFormValidation`)

Each chain mirrors one `body(...)` rule of `server.js`, in source
order.  Sanitizers (`trim`, `normalizeEmail`) run inside their chain
before the validators that follow them and persist their result back
into the body; validators do not short-circuit, so one chain can
contribute several errors. -/

/-- `isLength({ min, max })` of validator.js counts characters
(surrogate pairs count once), which `String.length` matches. -/
def lengthBetween (lo hi : Nat) (s : String) : Bool :=
  lo ≤ s.length && s.length ≤ hi

/-- The name character class `/^[a-zA-ZÀ-ÿ\s'-]+$/`. -/
def nameChar (c : Char) : Bool :=
  asciiLetter c || (0xC0 ≤ c.toNat && c.toNat ≤ 0xFF) || isJsSpace c ||
  c = '\'' || c = '-'

/-- `matches(/^[a-zA-ZÀ-ÿ\s'-]+$/)`. -/
def nameMatches (s : String) : Bool :=
  s ≠ "" && s.data.all nameChar

/-- `body('First-Name').trim().isLength({min:2,max:50}).withMessage(...)
.matches(...).withMessage(...)`. -/
def validateFirstName (b : Body) : List FieldError :=
  let v := jsTrim (optToStr b.firstName)
  (if lengthBetween 2 50 v then [] else
    [⟨some "First-Name", "First name must be between 2 and 50 characters"⟩]) ++
  (if nameMatches v then [] else
    [⟨some "First-Name", "First name contains invalid characters"⟩])

/-- `body('Last-Name')`: same rules as the first name. -/
def validateLastName (b : Body) : List FieldError :=
  let v := jsTrim (optToStr b.lastName)
  (if lengthBetween 2 50 v then [] else
    [⟨some "Last-Name", "Last name must be between 2 and 50 characters"⟩]) ++
  (if nameMatches v then [] else
    [⟨some "Last-Name", "Last name contains invalid characters"⟩])

/-- `body('email').isEmail().normalizeEmail().withMessage(...)`: the
raw value is validated (no trim precedes `isEmail`), then the
sanitizer normalizes it. -/
def validateEmail (b : Body) : List FieldError :=
  if isEmailJs (optToStr b.email) then [] else
    [⟨some "email", "Please provide a valid email address"⟩]

/-- `body('field').notEmpty().withMessage(...)`: `notEmpty` with
default options checks `length === 0` on the raw value — there is no
`trim()` in this chain. -/
def validateField (b : Body) : List FieldError :=
  if optToStr b.field = "" then
    [⟨some "field", "Please select your job title"⟩]
  else []

/-- `body('name-2').trim().isLength({min:2,max:100}).withMessage(...)`. -/
def validateName2 (b : Body) : List FieldError :=
  let v := jsTrim (optToStr b.name2)
  if lengthBetween 2 100 v then [] else
    [⟨some "name-2", "Healthcare institution name must be between 2 and 100 characters"⟩]

/-- `body('field-2').optional().trim().isLength({max:1000})`: the
whole chain is skipped when the field is absent. -/
def validateField2 (b : Body) : List FieldError :=
  match b.field2 with
  | none => []
  | some raw =>
      let v := jsTrim raw
      if v.length ≤ 1000 then [] else
        [⟨some "field-2", "Message must not exceed 1000 characters"⟩]

/-- `body('checkbox').equals('on').withMessage(...)`. -/
def validateCheckbox (b : Body) : List FieldError :=
  if optToStr b.checkbox = "on" then [] else
    [⟨some "checkbox", "You must agree to be contacted by the Jaide team"⟩]

/-- `body('g-recaptcha-response').notEmpty().withMessage(...)`. -/
def validateRecaptchaToken (b : Body) : List FieldError :=
  if optToStr b.gRecaptchaResponse = "" then
    [⟨some "g-recaptcha-response", "Please complete the reCAPTCHA verification"⟩]
  else []

/-- `validationResult(req).array()`: all chains run, in declaration
order, and their errors are concatenated. -/
def runValidation (b : Body) : List FieldError :=
  validateFirstName b ++ validateLastName b ++ validateEmail b ++
  validateField b ++ validateName2 b ++ validateField2 b ++
  validateCheckbox b ++ validateRecaptchaToken b

/-- The body after the sanitizers have persisted their results:
`trim` for the two names and the institution, `normalizeEmail` for the
email, `trim` for the message when present; `field`, `checkbox` and
`g-recaptcha-response` have no sanitizer. -/
def sanitizedBody (b : Body) : Body where
  firstName := some (jsTrim (optToStr b.firstName))
  lastName := some (jsTrim (optToStr b.lastName))
  email := some (normalizeEmail (optToStr b.email))
  field := b.field
  name2 := some (jsTrim (optToStr b.name2))
  field2 := b.field2.map jsTrim
  checkbox := b.checkbox
  gRecaptchaResponse := b.gRecaptchaResponse

/-- The eight validated fields, used to state per-field properties of
the validator. -/
inductive FieldId
  | firstName | lastName | email | field | name2 | field2 | checkbox
  | gRecaptchaResponse
deriving DecidableEq, Fintype

/-- The errors contributed by one field's chain. -/
def chainErrors : FieldId → Body → List FieldError
  | .firstName => validateFirstName
  | .lastName => validateLastName
  | .email => validateEmail
  | .field => validateField
  | .name2 => validateName2
  | .field2 => validateField2
  | .checkbox => validateCheckbox
  | .gRecaptchaResponse => validateRecaptchaToken

/-- The `param` name each chain reports. -/
def paramName : FieldId → String
  | .firstName => "First-Name"
  | .lastName => "Last-Name"
  | .email => "email"
  | .field => "field"
  | .name2 => "name-2"
  | .field2 => "field-2"
  | .checkbox => "checkbox"
  | .gRecaptchaResponse => "g-recaptcha-response"

/-! ### Verification client (`verifyRecaptcha`) -/

/-- The JSON payload the verification call resolves with, as the
handler consumes it: `success` is the truthiness of `data.success`
(a malformed payload without the field reads as `false`), and
`errorCodes` is `data['error-codes']` when present. -/
structure SiteverifyData where
  success : Bool
  errorCodes : Option (List String)
deriving DecidableEq

/-- Outcome of the single axios call: either it resolves with a
payload (any 2xx response, well-formed or not), or it throws (network
error or non-2xx status). -/
inductive RecaptchaOutcome
  | resolved (d : SiteverifyData)
  | threw
deriving DecidableEq

/-- The value built in the `catch` of `verifyRecaptcha`:
`{ success: false, 'error-codes': ['request-failed'] }`. -/
def requestFailedData : SiteverifyData :=
  ⟨false, some ["request-failed"]⟩

/-- `verifyRecaptcha(token)`: throws on a missing (falsy) secret key,
which its own `try/catch` — like any axios fault — converts into the
`request-failed` payload; a resolved response is returned verbatim. -/
def verifyRecaptcha (cfg : Config) (token : String) (out : RecaptchaOutcome) :
    SiteverifyData :=
  if !isTruthy cfg.recaptchaSecretKey then requestFailedData
  else
    match token, out with
    | _, .resolved d => d
    | _, .threw => requestFailedData

/-! ### HTTP responses -/

/-- A response as the handler sends it: status code, the `success`
flag (absent for the rate limiter's plain-text reply), the `message`
body, and the `errors` array when one is attached. -/
structure HttpResponse where
  status : Nat
  success : Option Bool
  message : String
  errors : Option (List FieldError)
deriving DecidableEq

/-- `400 { success:false, message:'Validation failed', errors }`. -/
def validationFailedResponse (errs : List FieldError) : HttpResponse :=
  ⟨400, some false, "Validation failed", some errs⟩

/-- `400` with the reCAPTCHA failure message and its single synthetic
error entry. -/
def recaptchaFailedResponse : HttpResponse :=
  ⟨400, some false, "reCAPTCHA verification failed. Please try again.",
   some [⟨none, "reCAPTCHA verification failed"⟩]⟩

/-- The generic `500` body produced by the handler's `catch`. -/
def serverErrorResponse : HttpResponse :=
  ⟨500, some false,
   "Sorry, there was an error processing your request. Please try again later.", none⟩

/-- The `200` success body. -/
def successResponse : HttpResponse :=
  ⟨200, some true, "Thank you for your submission. We will get in touch soon!", none⟩

/-- The rate limiter's `429` reply with its configured message. -/
def rateLimitResponse : HttpResponse :=
  ⟨429, none, "Too many form submissions from this IP, please try again later.", none⟩

/-! ### Delivery transports -/

/-- The nodemailer transport `createTransporter` builds: the `gmail`
service preset, or the generic SMTP configuration. -/
inductive Transporter
  | gmail (user pass : Option String)
  | smtp (host : Option String) (port : String) (secure : Bool)
      (user pass : Option String)
deriving DecidableEq

/-- `createTransporter()`: the `gmail` preset exactly when
`EMAIL_SERVICE === 'gmail'`, and otherwise — whatever else the
variable holds — the generic SMTP transport from the `SMTP_*`
settings (port defaulting to 587, `secure` iff
`SMTP_SECURE === 'true'`). -/
def createTransporter (cfg : Config) : Transporter :=
  if cfg.emailService = some "gmail" then
    .gmail cfg.emailUser cfg.emailAppPassword
  else
    .smtp cfg.smtpHost (jsOrD cfg.smtpPort "587") (cfg.smtpSecure == some "true")
      cfg.smtpUser cfg.smtpPassword

/-- How an email-send operation is attempted: through the Resend API
client, or through a nodemailer transporter. -/
inductive SendChannel
  | resendApi
  | transporter (t : Transporter)
deriving DecidableEq

/-- One attempted send operation. -/
structure SendAttempt where
  channel : SendChannel
  fromAddr : Option String
  toAddr : String
  subject : String
  html : String
deriving DecidableEq

/-! ### Email composition

The two messages are built by string interpolation in the handler;
the literal chunks between the interpolated fields are named `...P1`,
`...P2`, … in source order. -/

def teamP1 : String :=
  "\n        <div style=\"font-family: Arial, sans-serif; max-width: 600px; margin: 0 auto;\">\n          <h2 style=\"color: #4CAF50;\">New Contact Form Submission</h2>\n          \n          <div style=\"background: #f8f9fa; padding: 20px; border-radius: 8px; margin: 20px 0;\">\n            <h3 style=\"margin-top: 0; color: #333;\">Contact Information</h3>\n            <p><strong>Name:</strong> "

def teamP2 : String :=
  "</p>\n            <p><strong>Email:</strong> <a href=\"mailto:"

def teamP3 : String := "\">"

def teamP4 : String :=
  "</a></p>\n            <p><strong>Job Title:</strong> "

def teamP5 : String :=
  "</p>\n            <p><strong>Healthcare Institution:</strong> "

def teamP6 : String :=
  "</p>\n          </div>\n          \n          "

def teamP7 : String :=
  "\n          \n          <div style=\"margin-top: 30px; padding-top: 20px; border-top: 1px solid #eee; color: #666; font-size: 12px;\">\n            <p>This email was sent from the jaide.care contact form on "

def teamP8 : String :=
  ".</p>\n          </div>\n        </div>\n      "

/-- Opening of the conditional Message block, up to the interpolated
(newline-converted) message text. -/
def msgBlockP1 : String :=
  "\n          <div style=\"background: #fff; padding: 20px; border-left: 4px solid #4CAF50; margin: 20px 0;\">\n            <h3 style=\"margin-top: 0; color: #333;\">Message</h3>\n            <p style=\"line-height: 1.6;\">"

/-- Closing of the conditional Message block. -/
def msgBlockP2 : String :=
  "</p>\n          </div>\n          "

/-- `mailToTeam.html`: the notification body, with the Message block
rendered only when `message` is truthy (non-empty), exactly as
`${message ? ... : ''}` does. -/
def mailToTeamHtml (firstName lastName email jobTitle institution message now : String) :
    String :=
  teamP1 ++ firstName ++ " " ++ lastName ++ teamP2 ++ email ++ teamP3 ++ email ++
  teamP4 ++ jobTitle ++ teamP5 ++ institution ++ teamP6 ++
  (if message ≠ "" then msgBlockP1 ++ jsReplaceNewlines message ++ msgBlockP2 else "") ++
  teamP7 ++ now ++ teamP8

/-- `mailToTeam.subject`. -/
def mailToTeamSubject (firstName lastName : String) : String :=
  "New Contact Form Submission from " ++ firstName ++ " " ++ lastName

def userP1 : String :=
  "\n        <div style=\"font-family: Arial, sans-serif; max-width: 600px; margin: 0 auto;\">\n          <div style=\"text-align: center; margin-bottom: 30px;\">\n            <img src=\"https://jaide.care/images/jaide-logo---rectangle---no-background.png\" alt=\"Jaide Logo\" style=\"max-width: 200px;\">\n          </div>\n          \n          <h2 style=\"color: #4CAF50;\">Thank you for your interest in Jaide!</h2>\n          \n          <p>Dear "

def userP2 : String :=
  ",</p>\n          \n          <p>Thank you for reaching out to us. We have received your contact form submission and our team will review your request shortly.</p>\n          \n          <div style=\"background: #f8f9fa; padding: 20px; border-radius: 8px; margin: 20px 0;\">\n            <h3 style=\"margin-top: 0; color: #333;\">What happens next?</h3>\n            <ul style=\"line-height: 1.6;\">\n              <li>Our team will review your request within 24 hours</li>\n              <li>A member of our team will contact you to discuss your needs</li>\n              <li>We can schedule a personalized demo of jaide's AI solutions</li>\n            </ul>\n          </div>\n          \n          <p>In the meantime, you can book a demo slot directly using the link below:</p>\n          \n          <div style=\"text-align: center; margin: 30px 0;\">\n            <a href=\"https://calendar.notion.so/meet/camille-m52pt1shz/0d4pv3lcz\" \n               style=\"background: #4CAF50; color: white; padding: 12px 24px; text-decoration: none; border-radius: 6px; font-weight: bold;\">\n              Book a Demo\n            </a>\n          </div>\n          \n          <p>If you have any urgent questions, feel free to contact us directly at <a href=\"mailto:contact@jaide.care\">contact@jaide.care</a>.</p>\n          \n          <p>Best regards,<br>The Jaide Team</p>\n          \n          <div style=\"margin-top: 40px; padding-top: 20px; border-top: 1px solid #eee; color: #666; font-size: 12px;\">\n            <p>This is an automated confirmation email. Please do not reply to this email.</p>\n            <p>Jaide - AI that cares | <a href=\"https://jaide.care\">jaide.care</a></p>\n          </div>\n        </div>\n      "

/-- `mailToUser.html`: the fixed confirmation template personalized
with the first name. -/
def mailToUserHtml (firstName : String) : String :=
  userP1 ++ firstName ++ userP2

/-- `mailToUser.subject`. -/
def mailToUserSubject : String :=
  "Thank you for contacting Jaide - We'll be in touch soon"

/-! ### The submission handler (`POST /submit-contact`) -/

/-- The per-request outcomes of the external effects: the result of
the axios verification call, the timestamp rendered in the team
footer, whether `transporter.verify()` succeeds, and whether each of
the two send operations succeeds.  Send failures affect only the
response (via the `catch`), never whether the sends were attempted. -/
structure Ext where
  recaptcha : RecaptchaOutcome
  now : String
  smtpVerifyOk : Bool
  teamSendOk : Bool
  userSendOk : Bool
deriving DecidableEq

/-- What one request produced: the HTTP response, whether the
verification call was made, and the list of attempted email-send
operations, in the order they are passed to `Promise.all`. -/
structure ReqOutcome where
  response : HttpResponse
  verifyCalled : Bool
  sends : List SendAttempt
deriving DecidableEq

/-- The `/submit-contact` handler body (after the rate limiter):
validation check, reCAPTCHA verification, composition of the two
messages from the sanitized body, then dispatch through Resend
(throwing when the client was never initialized) or through the
nodemailer transporter (whose `verify()` precedes both sends); every
thrown error is caught and mapped to the generic 500 response. -/
def handleContact (cfg : Config) (b : Body) (ext : Ext) : ReqOutcome :=
  let errs := runValidation b
  if errs ≠ [] then ⟨validationFailedResponse errs, false, []⟩
  else
    let sb := sanitizedBody b
    let recaptchaResult := verifyRecaptcha cfg (optToStr sb.gRecaptchaResponse) ext.recaptcha
    if !recaptchaResult.success then ⟨recaptchaFailedResponse, true, []⟩
    else
      let firstName := optToStr sb.firstName
      let lastName := optToStr sb.lastName
      let email := optToStr sb.email
      let jobTitle := optToStr sb.field
      let institution := optToStr sb.name2
      let message := optToStr sb.field2
      let mailFrom := jsOr cfg.emailFrom cfg.emailUser
      let teamTo := jsOrD cfg.emailTo "contact@jaide.care"
      let teamSubject := mailToTeamSubject firstName lastName
      let teamHtml := mailToTeamHtml firstName lastName email jobTitle institution
        message ext.now
      let userSubject := mailToUserSubject
      let userHtml := mailToUserHtml firstName
      let response :=
        if ext.teamSendOk && ext.userSendOk then successResponse else serverErrorResponse
      if cfg.emailService = some "resend" then
        if !isTruthy cfg.resendApiKey then ⟨serverErrorResponse, true, []⟩
        else
          let fromAddress := jsOrD cfg.emailFrom "onboarding@resend.dev"
          ⟨response, true,
           [⟨.resendApi, some fromAddress, teamTo, teamSubject, teamHtml⟩,
            ⟨.resendApi, some fromAddress, email, userSubject, userHtml⟩]⟩
      else
        let t := createTransporter cfg
        if !ext.smtpVerifyOk then ⟨serverErrorResponse, true, []⟩
        else
          ⟨response, true,
           [⟨.transporter t, mailFrom, teamTo, teamSubject, teamHtml⟩,
            ⟨.transporter t, mailFrom, email, userSubject, userHtml⟩]⟩

/-! ### Rate limiting (`express-rate-limit`) -/

/-- `windowMs: 15 * 60 * 1000`. -/
def windowMs : Nat := 15 * 60 * 1000

/-- `max: 5` requests per IP per window. -/
def maxRequests : Nat := 5

/-- The limiter's store: per-IP hit count and window reset time. -/
def Store : Type := String → Option (Nat × Nat)

/-- The store of a freshly started process. -/
def emptyStore : Store := fun _ => none

/-- One `increment` of the memory store: start a fresh window (count
1, reset `now + windowMs`) when the key is new or its window has
expired, and bump the counter otherwise.  Returns the hit count used
for the limit decision. -/
def limiterHit (st : Store) (ip : String) (now : Nat) : Nat × Store :=
  match st ip with
  | some (c, reset) =>
      if now < reset then
        (c + 1, fun k => if k = ip then some (c + 1, reset) else st k)
      else (1, fun k => if k = ip then some (1, now + windowMs) else st k)
  | none => (1, fun k => if k = ip then some (1, now + windowMs) else st k)

/-- The outcome of a rate-limited request: the 429 reply, no
verification call, no sends — the validation chains and the handler
never run. -/
def rateLimitedOutcome : ReqOutcome :=
  ⟨rateLimitResponse, false, []⟩

/-- One inbound request: client IP, arrival time, body, and the
outcomes of its external effects. -/
structure Request where
  ip : String
  time : Nat
  body : Body
  ext : Ext

/-- The middleware pipeline over a sequence of requests: the limiter
counts the hit first and replies 429 when the count exceeds the cap;
otherwise the request proceeds to validation and the handler. -/
def runPipeline (cfg : Config) : Store → List Request → List ReqOutcome
  | _, [] => []
  | st, r :: rs =>
      let hit := limiterHit st r.ip r.time
      (if hit.1 > maxRequests then rateLimitedOutcome
       else handleContact cfg r.body r.ext) :: runPipeline cfg hit.2 rs

/-! ### Substring search -/

/-- `pat` begins the list `l`. -/
def startsWithList : List Char → List Char → Bool
  | [], _ => true
  | _ :: _, [] => false
  | a :: as, b :: bs => a = b && startsWithList as bs

/-- `pat` occurs as a contiguous sublist of `l`. -/
def hasSubList (pat : List Char) : List Char → Bool
  | [] => startsWithList pat []
  | c :: rest => startsWithList pat (c :: rest) || hasSubList pat rest

/-- `pat` occurs as a substring of `s`. -/
def hasSubstr (pat s : String) : Bool :=
  hasSubList pat.data s.data

/-! ### Spec-side renderings of the team notification

`teamHtmlNoMsg` is the notification body with the Message section
absent (the spec's "omitting the message block entirely"), and
`teamHtmlWithMsg` the body with the section rendered around an
already-converted message text.  The claim compares the source
template against these. -/

/-- The team notification without any Message section. -/
def teamHtmlNoMsg (firstName lastName email jobTitle institution now : String) :
    String :=
  teamP1 ++ firstName ++ " " ++ lastName ++ teamP2 ++ email ++ teamP3 ++ email ++
  teamP4 ++ jobTitle ++ teamP5 ++ institution ++ teamP6 ++ teamP7 ++ now ++ teamP8

/-- The team notification with the Message section rendered around the
converted message text `conv`. -/
def teamHtmlWithMsg (firstName lastName email jobTitle institution conv now : String) :
    String :=
  teamP1 ++ firstName ++ " " ++ lastName ++ teamP2 ++ email ++ teamP3 ++ email ++
  teamP4 ++ jobTitle ++ teamP5 ++ institution ++ teamP6 ++
  msgBlockP1 ++ conv ++ msgBlockP2 ++ teamP7 ++ now ++ teamP8

/-- Whether the configured delivery backend can reach its send
operations: the Resend path needs the API key to have been configured
at startup, the nodemailer path needs `transporter.verify()` to
succeed. -/
def deliveryReady (cfg : Config) (ext : Ext) : Bool :=
  if cfg.emailService = some "resend" then isTruthy cfg.resendApiKey
  else ext.smtpVerifyOk

/-! ### Concrete inputs used by witnesses and counterexamples -/

/-- A configuration with the generic SMTP backend and a configured
verification secret. -/
def exCfgSmtp : Config :=
  ⟨none, some "secret-key", none, none, none, none, none,
   some "smtp.host.example", none, none, some "smtp-user", some "smtp-pass"⟩

/-- External outcomes: verification succeeds, transport verification
and both sends succeed. -/
def exExtOk : Ext :=
  ⟨.resolved ⟨true, none⟩, "1/1/2025, 10:00:00 AM", true, true, true⟩

/-- External outcomes where the verification service reports failure. -/
def exExtVerifyFail : Ext :=
  ⟨.resolved ⟨false, some ["invalid-input-response"]⟩, "1/1/2025, 10:00:00 AM",
   true, true, true⟩

/-- A submission that passes every validation rule. -/
def exGoodBody : Body :=
  ⟨some "Ana", some "Lopez", some "ana@example.com", some "Nurse",
   some "City Hospital", none, some "on", some "tok123"⟩

/-- The spec's §8 end-to-end example input, with its trailing space in
the email field. -/
def exSpecExampleBody : Body :=
  ⟨some "Ana", some "Lopez", some "ANA@Example.com ", some "Nurse",
   some "City Hospital", none, some "on", some "tok123"⟩

/-- The example input with the email's trailing space removed. -/
def exTrimmedEmailBody : Body :=
  ⟨some "Ana", some "Lopez", some "ANA@Example.com", some "Nurse",
   some "City Hospital", none, some "on", some "tok123"⟩

/-- A submission whose job-title field consists only of whitespace. -/
def exWhitespaceFieldBody : Body :=
  ⟨some "Ana", some "Lopez", some "ana@example.com", some " ",
   some "City Hospital", none, some "on", some "tok123"⟩

/-- A submission whose only violated rule is the consent checkbox. -/
def exNoConsentBody : Body :=
  ⟨some "Ana", some "Lopez", some "ana@example.com", some "Nurse",
   some "City Hospital", none, none, some "tok123"⟩

/-- The SMTP configuration with no verification secret configured. -/
def exCfgNoSecret : Config :=
  { exCfgSmtp with recaptchaSecretKey := none }

/-- The Resend backend selected without an API key. -/
def exCfgResendNoKey : Config :=
  { exCfgSmtp with emailService := some "resend" }

/-- A configuration with an unrecognized backend identifier. -/
def exCfgOtherService : Config :=
  { exCfgSmtp with emailService := some "sendgrid" }

/-! ### String and substring lemmas -/

theorem strAppend_data (a b : String) : (a ++ b).data = a.data ++ b.data := rfl

theorem strAppend_empty (s : String) : s ++ "" = s := by
  cases s with
  | mk l => exact congrArg String.mk (List.append_nil l)

theorem strAppend_assoc (a b c : String) : a ++ b ++ c = a ++ (b ++ c) := by
  cases a with
  | mk la =>
    cases b with
    | mk lb =>
      cases c with
      | mk lc => exact congrArg String.mk (List.append_assoc la lb lc)

theorem startsWithList_self_append (p r : List Char) :
    startsWithList p (p ++ r) = true := by
  induction p with
  | nil => rfl
  | cons a as ih => simp [startsWithList, ih]

theorem hasSubList_here (p b : List Char) : hasSubList p (p ++ b) = true := by
  have h := startsWithList_self_append p b
  cases hpb : p ++ b with
  | nil =>
    rcases List.append_eq_nil.mp hpb with ⟨hp, _⟩
    subst hp
    rfl
  | cons c rest =>
    rw [hpb] at h
    simp [hasSubList, h]

theorem hasSubList_cons (p : List Char) (c : Char) (t : List Char)
    (h : hasSubList p t = true) : hasSubList p (c :: t) = true := by
  simp [hasSubList, h]

theorem hasSubList_append_left (p a b : List Char)
    (h : hasSubList p b = true) : hasSubList p (a ++ b) = true := by
  induction a with
  | nil => simpa using h
  | cons c cs ih => simpa using hasSubList_cons p c (cs ++ b) ih

/-! ### Validation helper lemmas -/

/-- A present field reads as its own string. -/
theorem optToStr_some (s : String) : optToStr (some s) = s := rfl

/-- Every error a chain contributes names its own field. -/
theorem chainErrors_param (f : FieldId) (b : Body) :
    ∀ e ∈ chainErrors f b, e.param = some (paramName f) := by
  intro e he
  cases f <;>
    simp only [chainErrors, validateFirstName, validateLastName, validateEmail,
      validateField, validateName2, validateField2, validateCheckbox,
      validateRecaptchaToken, List.mem_append] at he <;>
    (repeat' split at he) <;>
    simp only [List.not_mem_nil, List.mem_singleton, false_or, or_false] at he <;>
    (try rcases he with he | he) <;>
    simp_all [paramName]

/-- When every chain but `f`'s reports no error, the whole validation
result is `f`'s errors. -/
theorem runValidation_eq_single (b : Body) (f : FieldId)
    (hothers : ∀ g, g ≠ f → chainErrors g b = []) :
    runValidation b = chainErrors f b := by
  cases f with
  | firstName =>
      show runValidation b = validateFirstName b
      have hLastName : validateLastName b = [] := hothers .lastName (by decide)
      have hEmail : validateEmail b = [] := hothers .email (by decide)
      have hField : validateField b = [] := hothers .field (by decide)
      have hName2 : validateName2 b = [] := hothers .name2 (by decide)
      have hField2 : validateField2 b = [] := hothers .field2 (by decide)
      have hCheckbox : validateCheckbox b = [] := hothers .checkbox (by decide)
      have hGRecaptchaResponse : validateRecaptchaToken b = [] := hothers .gRecaptchaResponse (by decide)
      simp [runValidation, hLastName, hEmail, hField, hName2, hField2, hCheckbox, hGRecaptchaResponse]
  | lastName =>
      show runValidation b = validateLastName b
      have hFirstName : validateFirstName b = [] := hothers .firstName (by decide)
      have hEmail : validateEmail b = [] := hothers .email (by decide)
      have hField : validateField b = [] := hothers .field (by decide)
      have hName2 : validateName2 b = [] := hothers .name2 (by decide)
      have hField2 : validateField2 b = [] := hothers .field2 (by decide)
      have hCheckbox : validateCheckbox b = [] := hothers .checkbox (by decide)
      have hGRecaptchaResponse : validateRecaptchaToken b = [] := hothers .gRecaptchaResponse (by decide)
      simp [runValidation, hFirstName, hEmail, hField, hName2, hField2, hCheckbox, hGRecaptchaResponse]
  | email =>
      show runValidation b = validateEmail b
      have hFirstName : validateFirstName b = [] := hothers .firstName (by decide)
      have hLastName : validateLastName b = [] := hothers .lastName (by decide)
      have hField : validateField b = [] := hothers .field (by decide)
      have hName2 : validateName2 b = [] := hothers .name2 (by decide)
      have hField2 : validateField2 b = [] := hothers .field2 (by decide)
      have hCheckbox : validateCheckbox b = [] := hothers .checkbox (by decide)
      have hGRecaptchaResponse : validateRecaptchaToken b = [] := hothers .gRecaptchaResponse (by decide)
      simp [runValidation, hFirstName, hLastName, hField, hName2, hField2, hCheckbox, hGRecaptchaResponse]
  | field =>
      show runValidation b = validateField b
      have hFirstName : validateFirstName b = [] := hothers .firstName (by decide)
      have hLastName : validateLastName b = [] := hothers .lastName (by decide)
      have hEmail : validateEmail b = [] := hothers .email (by decide)
      have hName2 : validateName2 b = [] := hothers .name2 (by decide)
      have hField2 : validateField2 b = [] := hothers .field2 (by decide)
      have hCheckbox : validateCheckbox b = [] := hothers .checkbox (by decide)
      have hGRecaptchaResponse : validateRecaptchaToken b = [] := hothers .gRecaptchaResponse (by decide)
      simp [runValidation, hFirstName, hLastName, hEmail, hName2, hField2, hCheckbox, hGRecaptchaResponse]
  | name2 =>
      show runValidation b = validateName2 b
      have hFirstName : validateFirstName b = [] := hothers .firstName (by decide)
      have hLastName : validateLastName b = [] := hothers .lastName (by decide)
      have hEmail : validateEmail b = [] := hothers .email (by decide)
      have hField : validateField b = [] := hothers .field (by decide)
      have hField2 : validateField2 b = [] := hothers .field2 (by decide)
      have hCheckbox : validateCheckbox b = [] := hothers .checkbox (by decide)
      have hGRecaptchaResponse : validateRecaptchaToken b = [] := hothers .gRecaptchaResponse (by decide)
      simp [runValidation, hFirstName, hLastName, hEmail, hField, hField2, hCheckbox, hGRecaptchaResponse]
  | field2 =>
      show runValidation b = validateField2 b
      have hFirstName : validateFirstName b = [] := hothers .firstName (by decide)
      have hLastName : validateLastName b = [] := hothers .lastName (by decide)
      have hEmail : validateEmail b = [] := hothers .email (by decide)
      have hField : validateField b = [] := hothers .field (by decide)
      have hName2 : validateName2 b = [] := hothers .name2 (by decide)
      have hCheckbox : validateCheckbox b = [] := hothers .checkbox (by decide)
      have hGRecaptchaResponse : validateRecaptchaToken b = [] := hothers .gRecaptchaResponse (by decide)
      simp [runValidation, hFirstName, hLastName, hEmail, hField, hName2, hCheckbox, hGRecaptchaResponse]
  | checkbox =>
      show runValidation b = validateCheckbox b
      have hFirstName : validateFirstName b = [] := hothers .firstName (by decide)
      have hLastName : validateLastName b = [] := hothers .lastName (by decide)
      have hEmail : validateEmail b = [] := hothers .email (by decide)
      have hField : validateField b = [] := hothers .field (by decide)
      have hName2 : validateName2 b = [] := hothers .name2 (by decide)
      have hField2 : validateField2 b = [] := hothers .field2 (by decide)
      have hGRecaptchaResponse : validateRecaptchaToken b = [] := hothers .gRecaptchaResponse (by decide)
      simp [runValidation, hFirstName, hLastName, hEmail, hField, hName2, hField2, hGRecaptchaResponse]
  | gRecaptchaResponse =>
      show runValidation b = validateRecaptchaToken b
      have hFirstName : validateFirstName b = [] := hothers .firstName (by decide)
      have hLastName : validateLastName b = [] := hothers .lastName (by decide)
      have hEmail : validateEmail b = [] := hothers .email (by decide)
      have hField : validateField b = [] := hothers .field (by decide)
      have hName2 : validateName2 b = [] := hothers .name2 (by decide)
      have hField2 : validateField2 b = [] := hothers .field2 (by decide)
      have hCheckbox : validateCheckbox b = [] := hothers .checkbox (by decide)
      simp [runValidation, hFirstName, hLastName, hEmail, hField, hName2, hField2, hCheckbox]

/-! ### C1 -/

/-- C1.  For every submission request, when the verification result
for the submitted token reports failure (whether the service said so
or the client converted a fault), the handler attempts no email-send
operation: it stops at the 400 reCAPTCHA branch (or earlier, at
validation) before any dispatch. -/
theorem c1_verification_failure_sends_nothing (cfg : Config) (b : Body) (ext : Ext)
    (h : (verifyRecaptcha cfg (optToStr (sanitizedBody b).gRecaptchaResponse)
            ext.recaptcha).success = false) :
    (handleContact cfg b ext).sends = [] := by
  unfold handleContact
  by_cases hv : runValidation b = []
  · simp [hv, h]
  · simp [hv]

/-- Witness for C1: the good submission with a service-reported
verification failure produces no send attempt. -/
theorem c1_witness :
    (handleContact exCfgSmtp exGoodBody exExtVerifyFail).sends = [] :=
  c1_verification_failure_sends_nothing exCfgSmtp exGoodBody exExtVerifyFail (by decide)

/-! ### C9 -/

/-- C9.  When exactly one field's chain reports errors, the response
is `400` / `Validation failed`, its error list is that chain's
non-empty list, and every entry in it names the violating field — so
no entry is produced for any field that satisfies its rule. -/
theorem c9_single_violation_response (cfg : Config) (b : Body) (ext : Ext)
    (f : FieldId) (hbad : chainErrors f b ≠ [])
    (hothers : ∀ g, g ≠ f → chainErrors g b = []) :
    (handleContact cfg b ext).response.status = 400 ∧
    (handleContact cfg b ext).response.message = "Validation failed" ∧
    (handleContact cfg b ext).response.errors = some (chainErrors f b) ∧
    chainErrors f b ≠ [] ∧
    ∀ e ∈ chainErrors f b, e.param = some (paramName f) := by
  have hrv := runValidation_eq_single b f hothers
  have hne : runValidation b ≠ [] := by rw [hrv]; exact hbad
  refine ⟨?_, ?_, ?_, hbad, chainErrors_param f b⟩ <;>
    simp [handleContact, hrv, hbad, validationFailedResponse]

/-- Witness for C9: a submission violating only the consent rule gets
the 400 validation response whose single error names `checkbox`. -/
theorem c9_witness :
    (handleContact exCfgSmtp exNoConsentBody exExtOk).response.status = 400 ∧
    (handleContact exCfgSmtp exNoConsentBody exExtOk).response.message =
      "Validation failed" ∧
    (handleContact exCfgSmtp exNoConsentBody exExtOk).response.errors =
      some (chainErrors .checkbox exNoConsentBody) ∧
    chainErrors .checkbox exNoConsentBody ≠ [] ∧
    ∀ e ∈ chainErrors .checkbox exNoConsentBody,
      e.param = some (paramName .checkbox) :=
  c9_single_violation_response exCfgSmtp exNoConsentBody exExtOk .checkbox
    (by decide) (by decide)

/-! ### C4 -/

/-- Counterexample to C4: the job-title field `" "` consists only of
whitespace, yet validation reports no error at all and the submission
is accepted with the 200 success body — `notEmpty` runs on the raw
value and no `trim()` precedes it. -/
theorem c4_counterexample :
    runValidation exWhitespaceFieldBody = [] ∧
    (handleContact exCfgSmtp exWhitespaceFieldBody exExtOk).response =
      successResponse := by
  constructor <;> decide

/-- C4 (amended).  The `field` chain reports its error exactly when
the raw job-title value is the empty string (a missing field reads as
empty); whitespace-only values pass because the rule applies no
trimming. -/
theorem filterField_validateFirstName (b : Body) :
    (validateFirstName b).filter (fun e => e.param == some "field") = [] := by
  dsimp only [validateFirstName]
  repeat' split
  all_goals rfl

theorem filterField_validateLastName (b : Body) :
    (validateLastName b).filter (fun e => e.param == some "field") = [] := by
  dsimp only [validateLastName]
  repeat' split
  all_goals rfl

theorem filterField_validateEmail (b : Body) :
    (validateEmail b).filter (fun e => e.param == some "field") = [] := by
  dsimp only [validateEmail]
  split <;> rfl

theorem filterField_validateName2 (b : Body) :
    (validateName2 b).filter (fun e => e.param == some "field") = [] := by
  dsimp only [validateName2]
  split <;> rfl

theorem filterField_validateField2 (b : Body) :
    (validateField2 b).filter (fun e => e.param == some "field") = [] := by
  dsimp only [validateField2]
  repeat' split
  all_goals rfl

theorem filterField_validateCheckbox (b : Body) :
    (validateCheckbox b).filter (fun e => e.param == some "field") = [] := by
  dsimp only [validateCheckbox]
  split <;> rfl

theorem filterField_validateRecaptchaToken (b : Body) :
    (validateRecaptchaToken b).filter (fun e => e.param == some "field") = [] := by
  dsimp only [validateRecaptchaToken]
  split <;> rfl

theorem c4_field_error_iff_empty (b : Body) :
    (runValidation b).filter (fun e => e.param == some "field") =
      (if optToStr b.field = "" then
        [⟨some "field", "Please select your job title"⟩] else []) := by
  unfold runValidation
  simp only [List.filter_append, filterField_validateFirstName,
    filterField_validateLastName, filterField_validateEmail,
    filterField_validateName2, filterField_validateField2,
    filterField_validateCheckbox, filterField_validateRecaptchaToken,
    List.nil_append, List.append_nil]
  unfold validateField
  split <;> simp [*]

/-! ### C2 -/

/-- Counterexample to C2's example clause: the spec's §8 input — whose
email field is `"ANA@Example.com "` with a trailing space — does not
yield any send, because `isEmail` runs on the raw value (nothing trims
it) and rejects the whitespace; the request ends at the 400 validation
response, so no confirmation addressed to `ana@example.com` exists. -/
theorem c2_counterexample :
    (handleContact exCfgSmtp exSpecExampleBody exExtOk).sends = [] ∧
    (handleContact exCfgSmtp exSpecExampleBody exExtOk).response.status = 400 ∧
    (handleContact exCfgSmtp exSpecExampleBody exExtOk).response.message =
      "Validation failed" := by
  refine ⟨?_, ?_, ?_⟩ <;> decide

/-- C2 (amended).  For every submission that passes validation, whose
verification returns Success, and whose configured delivery backend is
available (API key configured when the backend is `resend`, transport
verification succeeding otherwise), exactly two sends are attempted:
one to the configured operator address (default `contact@jaide.care`)
and one to the normalized submitted email. -/
theorem c2_two_sends (cfg : Config) (b : Body) (ext : Ext)
    (hv : runValidation b = [])
    (hs : (verifyRecaptcha cfg (optToStr (sanitizedBody b).gRecaptchaResponse)
            ext.recaptcha).success = true)
    (hd : deliveryReady cfg ext = true) :
    (handleContact cfg b ext).sends.map SendAttempt.toAddr =
      [jsOrD cfg.emailTo "contact@jaide.care", normalizeEmail (optToStr b.email)] := by
  have hs' : (verifyRecaptcha cfg (optToStr b.gRecaptchaResponse)
      ext.recaptcha).success = true := hs
  by_cases hr : cfg.emailService = some "resend"
  · have hk : isTruthy cfg.resendApiKey = true := by
      simpa [deliveryReady, hr] using hd
    simp [handleContact, hv, hs', hr, hk, sanitizedBody, optToStr_some]
  · have hk : ext.smtpVerifyOk = true := by
      simpa [deliveryReady, hr] using hd
    simp [handleContact, hv, hs', hr, hk, sanitizedBody, optToStr_some]

/-- Witness for C2 (amended): with the trailing space removed,
`"ANA@Example.com"` passes validation and the confirmation send is
addressed to `ana@example.com`. -/
theorem c2_witness :
    (handleContact exCfgSmtp exTrimmedEmailBody exExtOk).sends.map SendAttempt.toAddr =
      ["contact@jaide.care", "ana@example.com"] :=
  (c2_two_sends exCfgSmtp exTrimmedEmailBody exExtOk (by decide) (by decide)
    (by decide)).trans (by decide)

/-! ### C3 -/

/-- Counterexample to C3: with the verification secret unset, a valid
submission is answered with the 400 reCAPTCHA-failure response, not
with the generic 500 server error the claim asserts. -/
theorem c3_counterexample :
    (handleContact exCfgNoSecret exGoodBody exExtOk).response.status = 400 ∧
    (handleContact exCfgNoSecret exGoodBody exExtOk).response.message =
      "reCAPTCHA verification failed. Please try again." ∧
    (handleContact exCfgNoSecret exGoodBody exExtOk).response.status ≠ 500 ∧
    (handleContact exCfgNoSecret exGoodBody exExtOk).response.message ≠
      serverErrorResponse.message := by
  refine ⟨?_, ?_, ?_, ?_⟩ <;> decide

/-- C3 (amended).  A missing (or empty) verification secret is caught
inside the verification client and converted into the
`request-failed` verification Failure, so the handler reports it as
the 400 reCAPTCHA-failure response — never reaching dispatch — while
the detail stays server-side. -/
theorem c3_missing_secret_recaptcha400 (cfg : Config) (b : Body) (ext : Ext)
    (hv : runValidation b = [])
    (hk : isTruthy cfg.recaptchaSecretKey = false) :
    (handleContact cfg b ext).response = recaptchaFailedResponse ∧
    (handleContact cfg b ext).sends = [] := by
  have hvr : verifyRecaptcha cfg (optToStr (sanitizedBody b).gRecaptchaResponse)
      ext.recaptcha = requestFailedData := by
    simp [verifyRecaptcha, hk]
  constructor <;> simp [handleContact, hv, hvr, requestFailedData]

/-- Witness for C3 (amended) at the concrete secret-less
configuration. -/
theorem c3_witness :
    (handleContact exCfgNoSecret exGoodBody exExtOk).response =
      recaptchaFailedResponse ∧
    (handleContact exCfgNoSecret exGoodBody exExtOk).sends = [] :=
  c3_missing_secret_recaptcha400 exCfgNoSecret exGoodBody exExtOk
    (by decide) (by decide)

/-! ### C5 -/

/-- Counterexample to C5: a payload the HTTP client resolves with but
that is malformed (no truthy `success`, no `error-codes`) is returned
verbatim — its reason codes are **not** the single code
`request-failed`. -/
theorem c5_counterexample :
    verifyRecaptcha exCfgSmtp "tok123" (.resolved ⟨false, none⟩) =
      (⟨false, none⟩ : SiteverifyData) ∧
    (verifyRecaptcha exCfgSmtp "tok123" (.resolved ⟨false, none⟩)).errorCodes ≠
      some ["request-failed"] ∧
    verifyRecaptcha exCfgSmtp "tok123" (.resolved ⟨false, none⟩) ≠
      requestFailedData := by
  refine ⟨?_, ?_, ?_⟩ <;> decide

/-- C5 (amended).  `verify` never raises: it is a total function whose
result on a thrown transport failure (network error, non-2xx) or a
missing secret is the Failure with exactly the single
`request-failed` code, and whose result on any payload the client
resolves with — well-formed or not — is that payload verbatim. -/
theorem c5_verify_total_behavior (cfg : Config) (token : String)
    (out : RecaptchaOutcome) :
    ((out = .threw ∨ isTruthy cfg.recaptchaSecretKey = false) →
      verifyRecaptcha cfg token out = requestFailedData) ∧
    (∀ d, out = .resolved d → isTruthy cfg.recaptchaSecretKey = true →
      verifyRecaptcha cfg token out = d) := by
  constructor
  · rintro (rfl | hk)
    · by_cases hk : isTruthy cfg.recaptchaSecretKey <;> simp [verifyRecaptcha, hk]
    · simp [verifyRecaptcha, hk]
  · rintro d rfl hk
    simp [verifyRecaptcha, hk]

/-- Witness for C5 (amended): a thrown call maps to `request-failed`;
a resolved success payload is passed through. -/
theorem c5_witness :
    verifyRecaptcha exCfgSmtp "tok123" .threw = requestFailedData ∧
    verifyRecaptcha exCfgSmtp "tok123" (.resolved ⟨true, none⟩) =
      (⟨true, none⟩ : SiteverifyData) :=
  ⟨(c5_verify_total_behavior exCfgSmtp "tok123" .threw).1 (Or.inl rfl),
   (c5_verify_total_behavior exCfgSmtp "tok123" (.resolved ⟨true, none⟩)).2
     ⟨true, none⟩ rfl (by decide)⟩

/-! ### C6 -/

/-- C6.  With `EMAIL_SERVICE = 'resend'` and no API key configured at
startup, a validated and verified submission attempts no send at all:
the dispatch throws before both `resend.emails.send` calls and the
handler's catch maps it to the generic 500 body. -/
theorem c6_resend_unconfigured (cfg : Config) (b : Body) (ext : Ext)
    (hv : runValidation b = [])
    (hs : (verifyRecaptcha cfg (optToStr (sanitizedBody b).gRecaptchaResponse)
            ext.recaptcha).success = true)
    (hr : cfg.emailService = some "resend")
    (hk : isTruthy cfg.resendApiKey = false) :
    (handleContact cfg b ext).sends = [] ∧
    (handleContact cfg b ext).response = serverErrorResponse := by
  constructor <;> simp [handleContact, hv, hs, hr, hk]

/-- Witness for C6 at the concrete key-less Resend configuration. -/
theorem c6_witness :
    (handleContact exCfgResendNoKey exGoodBody exExtOk).sends = [] ∧
    (handleContact exCfgResendNoKey exGoodBody exExtOk).response =
      serverErrorResponse :=
  c6_resend_unconfigured exCfgResendNoKey exGoodBody exExtOk
    (by decide) (by decide) (by decide) (by decide)

/-! ### C7 -/

/-- C7.  Starting from a fresh store, six requests from one IP whose
arrival times all fall inside the window opened by the first request
produce five handler outcomes and then the rate-limited outcome: the
sixth gets the 429 reply — whatever its payload — with no validation
errors, no verification call and no sends. -/
theorem c7_sixth_request_limited (cfg : Config) (ip : String)
    (t0 t1 t2 t3 t4 t5 : Nat)
    (b0 b1 b2 b3 b4 b5 : Body) (e0 e1 e2 e3 e4 e5 : Ext)
    (h1 : t1 < t0 + windowMs) (h2 : t2 < t0 + windowMs)
    (h3 : t3 < t0 + windowMs) (h4 : t4 < t0 + windowMs)
    (h5 : t5 < t0 + windowMs) :
    runPipeline cfg emptyStore
      [⟨ip, t0, b0, e0⟩, ⟨ip, t1, b1, e1⟩, ⟨ip, t2, b2, e2⟩,
       ⟨ip, t3, b3, e3⟩, ⟨ip, t4, b4, e4⟩, ⟨ip, t5, b5, e5⟩] =
      [handleContact cfg b0 e0, handleContact cfg b1 e1,
       handleContact cfg b2 e2, handleContact cfg b3 e3,
       handleContact cfg b4 e4, rateLimitedOutcome] := by
  simp [runPipeline, limiterHit, emptyStore, maxRequests, h1, h2, h3, h4, h5]

/-- Witness for C7: six immediate requests from one address, the last
one carrying a perfectly valid payload, end with the 429 outcome. -/
theorem c7_witness :
    runPipeline exCfgSmtp emptyStore
      [⟨"203.0.113.7", 0, exGoodBody, exExtOk⟩,
       ⟨"203.0.113.7", 1, exGoodBody, exExtOk⟩,
       ⟨"203.0.113.7", 2, exGoodBody, exExtOk⟩,
       ⟨"203.0.113.7", 3, exGoodBody, exExtOk⟩,
       ⟨"203.0.113.7", 4, exGoodBody, exExtOk⟩,
       ⟨"203.0.113.7", 5, exGoodBody, exExtOk⟩] =
      [handleContact exCfgSmtp exGoodBody exExtOk,
       handleContact exCfgSmtp exGoodBody exExtOk,
       handleContact exCfgSmtp exGoodBody exExtOk,
       handleContact exCfgSmtp exGoodBody exExtOk,
       handleContact exCfgSmtp exGoodBody exExtOk,
       rateLimitedOutcome] :=
  c7_sixth_request_limited exCfgSmtp "203.0.113.7" 0 1 2 3 4 5
    exGoodBody exGoodBody exGoodBody exGoodBody exGoodBody exGoodBody
    exExtOk exExtOk exExtOk exExtOk exExtOk exExtOk
    (by decide) (by decide) (by decide) (by decide) (by decide)

/-! ### C8 -/

/-- C8.  The team notification renders no Message section at all when
the (sanitized) message is empty — the body is exactly the
section-free template — and otherwise it is exactly the template with
the section wrapped around the message text with every newline
converted to `<br>`, which therefore occurs verbatim inside the
rendered body. -/
theorem c8_message_section (firstName lastName email jobTitle institution message
    now : String) :
    (message = "" →
      mailToTeamHtml firstName lastName email jobTitle institution message now =
        teamHtmlNoMsg firstName lastName email jobTitle institution now) ∧
    (message ≠ "" →
      mailToTeamHtml firstName lastName email jobTitle institution message now =
        teamHtmlWithMsg firstName lastName email jobTitle institution
          (jsReplaceNewlines message) now ∧
      hasSubstr (jsReplaceNewlines message)
        (mailToTeamHtml firstName lastName email jobTitle institution message now) =
        true) := by
  constructor
  · intro h
    subst h
    simp [mailToTeamHtml, teamHtmlNoMsg, strAppend_empty]
  · intro h
    constructor
    · simp [mailToTeamHtml, teamHtmlWithMsg, h, strAppend_assoc]
    · unfold hasSubstr
      simp only [mailToTeamHtml, if_pos h, strAppend_data, List.append_assoc]
      repeat
        first
        | exact hasSubList_here _ _
        | apply hasSubList_append_left

/-- Witness for C8: the empty message renders the section-free body;
the message `"hi\nthere"` renders the section containing
`hi<br>there`. -/
theorem c8_witness :
    (mailToTeamHtml "Ana" "Lopez" "ana@example.com" "Nurse" "City Hospital" ""
        "1/1/2025" =
      teamHtmlNoMsg "Ana" "Lopez" "ana@example.com" "Nurse" "City Hospital"
        "1/1/2025") ∧
    (mailToTeamHtml "Ana" "Lopez" "ana@example.com" "Nurse" "City Hospital"
        "hi\nthere" "1/1/2025" =
      teamHtmlWithMsg "Ana" "Lopez" "ana@example.com" "Nurse" "City Hospital"
        (jsReplaceNewlines "hi\nthere") "1/1/2025" ∧
    hasSubstr (jsReplaceNewlines "hi\nthere")
      (mailToTeamHtml "Ana" "Lopez" "ana@example.com" "Nurse" "City Hospital"
        "hi\nthere" "1/1/2025") = true) :=
  ⟨(c8_message_section "Ana" "Lopez" "ana@example.com" "Nurse" "City Hospital" ""
      "1/1/2025").1 rfl,
   (c8_message_section "Ana" "Lopez" "ana@example.com" "Nurse" "City Hospital"
      "hi\nthere" "1/1/2025").2 (by decide)⟩

/-! ### C10 -/

/-- C10.  Whenever the configured backend identifier is neither
`resend` nor `gmail` — unset and unrecognized values included —
transport selection always yields the generic SMTP transport built
from the `SMTP_*` settings (never a configuration error), and every
send the handler attempts goes through that transporter. -/
theorem c10_unrecognized_service_uses_smtp (cfg : Config) (b : Body) (ext : Ext)
    (h1 : cfg.emailService ≠ some "resend")
    (h2 : cfg.emailService ≠ some "gmail") :
    createTransporter cfg =
      Transporter.smtp cfg.smtpHost (jsOrD cfg.smtpPort "587")
        (cfg.smtpSecure == some "true") cfg.smtpUser cfg.smtpPassword ∧
    ∀ a ∈ (handleContact cfg b ext).sends,
      a.channel = SendChannel.transporter (createTransporter cfg) := by
  constructor
  · simp [createTransporter, h2]
  · intro a ha
    unfold handleContact at ha
    by_cases hv : runValidation b = []
    · simp only [hv, ne_eq, not_true_eq_false, if_false] at ha
      repeat' split at ha
      all_goals simp_all
      all_goals (rcases ha with rfl | rfl <;> rfl)
    · simp [hv] at ha

/-- Witness for C10 at a concrete unrecognized identifier. -/
theorem c10_witness :
    createTransporter exCfgOtherService =
      Transporter.smtp exCfgOtherService.smtpHost
        (jsOrD exCfgOtherService.smtpPort "587")
        (exCfgOtherService.smtpSecure == some "true")
        exCfgOtherService.smtpUser exCfgOtherService.smtpPassword ∧
    ∀ a ∈ (handleContact exCfgOtherService exGoodBody exExtOk).sends,
      a.channel = SendChannel.transporter (createTransporter exCfgOtherService) :=
  c10_unrecognized_service_uses_smtp exCfgOtherService exGoodBody exExtOk
    (by decide) (by decide)

end JaideContact
